import Mathlib

/-!
Verification of the gitbackup automation tool (core/workflow_logic.py,
core/git_logic.py, core/command_logic.py) against its specification.

The Python code shells out to an external `git` binary and to user shell
commands.  We embed each Python function as a Lean function parameterised by
an *environment* `GitEnv : Nat → SpawnOutcome` giving the outcome of the k-th
spawned subprocess of a run, and we record every issued command in a trace
(`Tr`).  User input (for the interactive revert workflow) is a list of input
events.  Wall-clock time is a parameter `nowStr : String → String` mapping a
strftime format to its rendering.
-/

/-- Whitespace stripping on a character list (both ends). -/
def stripChars (cs : List Char) : List Char :=
  ((cs.dropWhile Char.isWhitespace).reverse.dropWhile Char.isWhitespace).reverse

/-- Python `str.strip()` (whitespace trimming). -/
def pyStrip (s : String) : String := ⟨stripChars s.data⟩

/-- Substring containment on character lists. -/
def listContains (needle : List Char) : List Char → Bool
  | [] => needle.isEmpty
  | c :: rest => needle.isPrefixOf (c :: rest) || listContains needle rest

/-- Python `needle in haystack` substring test. -/
def pyIn (needle haystack : String) : Bool :=
  listContains needle.data haystack.data

/-- Python `s.startswith(pre)`. -/
def pyStartswith (pre s : String) : Bool :=
  pre.data.isPrefixOf s.data

/-- Split a character list on a single separator character. -/
def splitCharAux (sep : Char) (acc : List Char) : List Char → List (List Char)
  | [] => [acc.reverse]
  | c :: rest =>
      if c = sep then acc.reverse :: splitCharAux sep [] rest
      else splitCharAux sep (c :: acc) rest

/-- Split a string on a single separator character (all occurrences). -/
def splitChar (sep : Char) (s : String) : List String :=
  (splitCharAux sep [] s.data).map String.mk

/-- Python `str.splitlines()` for newline-separated text: no trailing empty
line is produced, and the empty string has no lines. -/
def pySplitlines (s : String) : List String :=
  if s = "" then []
  else
    let parts := splitChar (Char.ofNat 10) s
    if parts.getLast? = some "" then parts.dropLast else parts

/-- Join strings with a single separator character between them. -/
def joinSepChar (sep : Char) : List String → String
  | [] => ""
  | [x] => x
  | x :: xs => x ++ String.mk [sep] ++ joinSepChar sep xs

/-- Python `s.split(sep, maxsplit)` for a one-character separator: at most
`maxsplit` splits, the remainder kept intact in the final part. -/
def pySplit1 (s : String) (sep : Char) (maxsplit : Nat) : List String :=
  let parts := splitChar sep s
  if parts.length ≤ maxsplit + 1 then parts
  else parts.take maxsplit ++ [joinSepChar sep (parts.drop maxsplit)]

/-- Decimal digits to a number (`none` when empty or non-digit). -/
def pyDigits (cs : List Char) : Option Nat :=
  if cs.isEmpty then none
  else if cs.all Char.isDigit then
    some (cs.foldl (fun n c => n * 10 + (c.toNat - 48)) 0)
  else none

/-- Python `int(s)` on plain decimal strings (surrounding whitespace allowed,
optional sign); `none` models `ValueError`. -/
def pyInt (s : String) : Option Int :=
  match (pyStrip s).data with
  | '-' :: rest => (pyDigits rest).map (fun n => -(n : Int))
  | '+' :: rest => (pyDigits rest).map (fun n => (n : Int))
  | t => (pyDigits t).map (fun n => (n : Int))

/-- Python `str.lower()`. -/
def pyLower (s : String) : String := ⟨s.data.map Char.toLower⟩

/-- Outcome of spawning one subprocess: it ran and exited with a code and
captured stdout/stderr, the binary was missing (`FileNotFoundError`), or some
other exception occurred while spawning. -/
inductive SpawnOutcome where
  | ran (exitCode : Nat) (stdout stderr : String)
  | binMissing
  | excOther
deriving Repr, DecidableEq

/-- Python exceptions that the command runners may have to handle. -/
inductive PyExc where
  | calledProcess (code : Nat) (stdout stderr : String)
  | fileNotFound
  | other
deriving Repr, DecidableEq

/-- `subprocess.run(..., check=True)`: raises `CalledProcessError` on any
non-zero exit code, `FileNotFoundError` when the binary is missing. -/
def subprocessCheck (o : SpawnOutcome) : Except PyExc (String × String) :=
  match o with
  | .ran code out err =>
      if code = 0 then .ok (out, err) else .error (.calledProcess code out err)
  | .binMissing => .error .fileNotFound
  | .excOther => .error .other

/-- `subprocess.run(..., check=False)`: returns the exit code, raising only
for spawn-level failures. -/
def subprocessNoCheck (o : SpawnOutcome) : Except PyExc (Nat × String × String) :=
  match o with
  | .ran code out err => .ok (code, out, err)
  | .binMissing => .error .fileNotFound
  | .excOther => .error .other

/-- The "nothing to commit" detection of `workflow_logic._execute_git_command`
(lines 105-107 and 121-123): English and Portuguese git messages. -/
def noChangesMsg (s : String) : Bool :=
  pyIn "nothing to commit, working tree clean" s ||
  pyIn "no changes added to commit" s ||
  pyIn "nada a memorizar, árvore-trabalho limpa" s

/-- `core/workflow_logic._execute_git_command`, with the exception flow made
explicit: the result is `(stdout?, success, commit_made?)` together with the
list of error/info message keys logged.  Every exception of the `try` body is
caught, so the function never propagates a `PyExc`. -/
def wfExecGitE (commandParts : List String) (o : SpawnOutcome) :
    Except PyExc ((Option String × Bool × Option Bool) × List String) :=
  let isCommit := commandParts.head? = some "commit"
  match subprocessCheck o with
  | .ok (out, _err) =>
      if isCommit then
        if noChangesMsg out then
          .ok ((some (pyStrip out), true, some false), ["git_no_changes_to_commit"])
        else
          .ok ((some (pyStrip out), true, some true), ["git_changes_committed"])
      else .ok ((some (pyStrip out), true, none), [])
  | .error (.calledProcess _code out err) =>
      if isCommit && noChangesMsg (out ++ err) then
        .ok ((some "", true, some false), ["git_no_changes_to_commit"])
      else
        .ok ((some (pyStrip out), false, none), ["git_command_failed"])
  | .error .fileNotFound => .ok ((none, false, none), ["git_not_found"])
  | .error .other => .ok ((none, false, none), ["git_command_exception"])

/-- The result component of `workflow_logic._execute_git_command` (the
`.error` branch is dead: see `wfExecGitE_never_raises`). -/
def wfExecGit (commandParts : List String) (o : SpawnOutcome) :
    Option String × Bool × Option Bool :=
  match wfExecGitE commandParts o with
  | .ok (r, _) => r
  | .error _ => (none, false, none)

/-- `core/git_logic._execute_git_command` (check=False, manual return-code
handling, special cases for `diff` and `revert` exit code 1).  Result is
`(stdout, success)` plus logged message keys. -/
def glExecGitE (commandParts : List String) (o : SpawnOutcome) :
    Except PyExc ((String × Bool) × List String) :=
  let isDiff := commandParts.head? = some "diff"
  let isRevert := commandParts.head? = some "revert"
  match subprocessNoCheck o with
  | .ok (code, out, err) =>
      if isDiff && code == 1 then .ok ((pyStrip out, true), ["git_command_failed"])
      else if isRevert && code == 1 then
        .ok ((pyStrip out ++ "\n" ++ pyStrip err, false), ["git_command_failed"])
      else if code != 0 then
        .ok ((pyStrip out ++ "\n" ++ pyStrip err, false), ["git_command_failed"])
      else .ok ((pyStrip out, true), [])
  | .error .fileNotFound => .ok (("", false), ["git_error_not_found"])
  | .error (.calledProcess _ _ _) => .ok (("", false), ["git_error_unexpected"])
  | .error .other => .ok (("", false), ["git_error_unexpected"])

/-- The result component of `git_logic._execute_git_command`. -/
def glExecGit (commandParts : List String) (o : SpawnOutcome) : String × Bool :=
  match glExecGitE commandParts o with
  | .ok (r, _) => r
  | .error _ => ("", false)

/-- `core/command_logic.execute_command` (shell=True, check=True), returning
only a boolean plus logged message keys.  `cwdBad` models "a cwd was supplied
and is not a directory" (early `return False` before spawning). -/
def clExecuteCommandE (cwdBad : Bool) (o : SpawnOutcome) :
    Except PyExc (Bool × List String) :=
  if cwdBad then .ok (false, ["cmd_cwd_warning", "cmd_cwd_error"])
  else
    match subprocessCheck o with
    | .ok _ => .ok (true, [])
    | .error (.calledProcess _ _ _) => .ok (false, ["cmd_failed_exit_code"])
    | .error .fileNotFound => .ok (false, ["cmd_not_found"])
    | .error .other => .ok (false, ["cmd_unexpected_error"])

/-- One observable step of a workflow run: a git invocation, a shell command
(pre/post command), or a directory creation. -/
inductive GStep where
  | git (args : List String)
  | shell (cmd : String)
  | mkdir
deriving Repr, DecidableEq

/-- Run trace: the number of subprocesses spawned so far and the ordered list
of steps performed. -/
structure Tr where
  k : Nat
  steps : List GStep
deriving Repr, DecidableEq

/-- Environment of a run: the outcome of the k-th spawned subprocess. -/
def GitEnv : Type := Nat → SpawnOutcome

/-- Spawn a git command through `workflow_logic._execute_git_command`,
consuming one environment slot and extending the trace. -/
def gitCall (env : GitEnv) (cmd : List String) (tr : Tr) :
    (Option String × Bool × Option Bool) × Tr :=
  (wfExecGit cmd (env tr.k), ⟨tr.k + 1, tr.steps ++ [GStep.git cmd]⟩)

/-- Spawn a git command through `git_logic._execute_git_command`. -/
def glCall (env : GitEnv) (cmd : List String) (tr : Tr) : (String × Bool) × Tr :=
  (glExecGit cmd (env tr.k), ⟨tr.k + 1, tr.steps ++ [GStep.git cmd]⟩)

/-- `workflow_logic._execute_command`: success of a pre/post shell command.
An empty command line is a no-op success without spawning anything. -/
def shellCall (env : GitEnv) (commandLine : String) (tr : Tr) : Bool × Tr :=
  if commandLine = "" then (true, tr)
  else
    ((match env tr.k with
      | .ran 0 _ _ => true
      | _ => false),
     ⟨tr.k + 1, tr.steps ++ [GStep.shell commandLine]⟩)

/-- `workflow_logic._check_for_changes`: `git status --porcelain`; returns
`(has_changes, error)`. -/
def checkForChanges (env : GitEnv) (tr : Tr) : (Bool × Bool) × Tr :=
  let r := gitCall env ["status", "--porcelain"] tr
  if r.1.2.1 then
    if pyStrip (r.1.1.getD "") ≠ "" then ((true, false), r.2)
    else ((false, false), r.2)
  else ((false, true), r.2)

/-- `workflow_logic._stash_local_changes`: stash including untracked files,
with the default label when no custom message is given. -/
def stashLocalChanges (env : GitEnv) (customMessage : Option String) (tr : Tr) :
    Bool × Tr :=
  let stashMessage :=
    match customMessage with
    | some m => if m = "" then "git-automation-temp-stash" else m
    | none => "git-automation-temp-stash"
  let r := gitCall env ["stash", "push", "--include-untracked", "-m", stashMessage] tr
  (r.1.2.1, r.2)

/-- `workflow_logic._pop_stashed_changes`: a `git stash list` first; an empty
stash list (or a failing list command) is a no-op success, otherwise
`git stash pop` decides the result. -/
def popStashedChanges (env : GitEnv) (tr : Tr) : Bool × Tr :=
  let rl := gitCall env ["stash", "list"] tr
  if rl.1.2.1 = false ∨ pyStrip (rl.1.1.getD "") = "" then (true, rl.2)
  else
    let rp := gitCall env ["stash", "pop"] rl.2
    (rp.1.2.1, rp.2)

/-- `git_logic._check_for_unstaged_changes`: `git status --porcelain=v1`,
filtering out untracked (`??`) lines; returns true only when a tracked-file
change remains (false also on a status-command error). -/
def checkForUnstagedChanges (env : GitEnv) (tr : Tr) : Bool × Tr :=
  let r := glCall env ["status", "--porcelain=v1"] tr
  if r.1.2 then
    let linesWithChanges :=
      (pySplitlines (pyStrip r.1.1)).filter (fun line => !pyStartswith "??" line)
    (!linesWithChanges.isEmpty, r.2)
  else (false, r.2)

/-- Task configuration (the attributes read by the workflows).  Python
truthiness of optional string fields is modelled by emptiness: an unset
`origin`, `pre_command`, `post_command` or `timestamp_format` is `""`. -/
structure TaskCfg where
  name : String
  folder : String
  branch : String
  origin : String
  pull_before_command : Bool
  pre_command : String
  post_command : String
  commit_message : String
  push_after_command : Bool
  timestamp_format : String
deriving Repr, DecidableEq

/-- Command-line overrides (`args.folder/branch/origin`, empty = not given)
and the `--initialize` flag. -/
structure Args where
  folder : String
  branch : String
  origin : String
  initFlag : Bool
deriving Repr, DecidableEq

/-- Snapshot of the filesystem facts the workflows consult:
`os.path.exists(repo_path)`, presence of the `.git` directory, and whether
`os.makedirs` would succeed. -/
structure Fs where
  pathExists : Bool
  isRepo : Bool
  mkdirOk : Bool
deriving Repr, DecidableEq

/-- The `elif origin_url:` block shared by `run_task_workflow` (lines 461-477)
and `run_update_task_workflow` (lines 658-675): list remotes, and add
`origin` unless a line starting with `origin` already mentions the URL. -/
def setupOrigin (originUrl : String) (env : GitEnv) (tr : Tr) :
    Except (Bool × Tr) Tr :=
  if originUrl ≠ "" then
    let r := gitCall env ["remote", "-v"] tr
    if r.1.2.1 then
      let originExists := (pySplitlines (r.1.1.getD "")).any
        (fun line => pyStartswith "origin" line && pyIn originUrl line)
      if originExists then .ok r.2
      else
        let a := gitCall env ["remote", "add", "origin", originUrl] r.2
        if a.1.2.1 then .ok a.2 else .error (false, a.2)
    else .error (false, r.2)
  else .ok tr

/-- The branch checkout/creation block shared by the full, update and pull
workflows (e.g. `run_task_workflow` lines 482-518): `rev-parse --verify` for
a local branch, else `ls-remote` for a remote one (then a tracking checkout),
else a brand-new branch plus a warning-only upstream push. -/
def setupBranch (branch originUrl : String) (env : GitEnv) (tr : Tr) :
    Except (Bool × Tr) Tr :=
  let rv := gitCall env ["rev-parse", "--verify", branch] tr
  if rv.1.2.1 then
    let co := gitCall env ["checkout", branch] rv.2
    if co.1.2.1 then .ok co.2 else .error (false, co.2)
  else
    let lr := gitCall env ["ls-remote", "--heads", "origin", branch] rv.2
    let remoteBranchExists :=
      lr.1.2.1 && pyIn ("refs/heads/" ++ branch) (lr.1.1.getD "")
    if remoteBranchExists then
      let ct := gitCall env ["checkout", "--track", "origin/" ++ branch] lr.2
      if ct.1.2.1 then .ok ct.2 else .error (false, ct.2)
    else
      let cb := gitCall env ["checkout", "-b", branch] lr.2
      if cb.1.2.1 then
        if originUrl ≠ "" then
          let pu := gitCall env ["push", "-u", "origin", branch] cb.2
          .ok pu.2
        else .ok cb.2
      else .error (false, cb.2)

/-- `run_task_workflow` lines 436-520: ensure the folder exists (creating it
if needed), initialize the repository when `--initialize` is given (otherwise
abort on a non-repository), reconcile the remote, and check out the branch. -/
def rtwSetup (args : Args) (task : TaskCfg) (fs : Fs) (env : GitEnv) :
    Except (Bool × Tr) Tr :=
  let branch := if args.branch ≠ "" then args.branch else task.branch
  let originUrl := if args.origin ≠ "" then args.origin else task.origin
  let tr0 : Tr := ⟨0, []⟩
  let dirStep : Except (Bool × Tr) Tr :=
    if fs.pathExists then .ok tr0
    else if fs.mkdirOk then .ok ⟨tr0.k, tr0.steps ++ [GStep.mkdir]⟩
    else .error (false, ⟨tr0.k, tr0.steps ++ [GStep.mkdir]⟩)
  match dirStep with
  | .error r => .error r
  | .ok tr1 =>
    let initStep : Except (Bool × Tr) Tr :=
      if fs.isRepo then setupOrigin originUrl env tr1
      else if args.initFlag then
        let i := gitCall env ["init"] tr1
        if i.1.2.1 then
          if originUrl ≠ "" then
            let ra := gitCall env ["remote", "add", "origin", originUrl] i.2
            if ra.1.2.1 then .ok ra.2 else .error (false, ra.2)
          else .ok i.2
        else .error (false, i.2)
      else .error (false, tr1)
    match initStep with
    | .error r => .error r
    | .ok tr2 => setupBranch branch originUrl env tr2

/-- The pull/stash-pop tail shared by the workflows (after the stash decision):
pull (popping the stash and aborting on failure), pop the stash if one was
made (warning-only on pop failure), then re-check for changes; the returned
boolean is `repo_clean_after_pull`. -/
def pullRest (branch : String) (env : GitEnv) (stashed : Bool) (tr : Tr) :
    Except (Bool × Tr) (Bool × Tr) :=
  let p := gitCall env ["pull", "origin", branch] tr
  if p.1.2.1 then
    let tr2 := if stashed then (popStashedChanges env p.2).2 else p.2
    let c2 := checkForChanges env tr2
    if c2.1.2 then .error (false, c2.2)
    else .ok (!c2.1.1, c2.2)
  else
    let tr2 := if stashed then (popStashedChanges env p.2).2 else p.2
    .error (false, tr2)

/-- The full pull section (`run_task_workflow` lines 527-562, duplicated in
the update workflow lines 724-759): check for changes, conditionally stash,
then `pullRest`. -/
def pullSection (branch : String) (env : GitEnv) (tr : Tr) :
    Except (Bool × Tr) (Bool × Tr) :=
  let c1 := checkForChanges env tr
  if c1.1.2 then .error (false, c1.2)
  else if c1.1.1 then
    let s := stashLocalChanges env none c1.2
    if s.1 then pullRest branch env true s.2 else .error (false, s.2)
  else pullRest branch env false c1.2

/-- `run_task_workflow` lines 526-564: the pull section runs only when
`pull_before_command` is set; otherwise `repo_clean_after_pull` stays false. -/
def rtwPull (task : TaskCfg) (branch : String) (env : GitEnv) (tr : Tr) :
    Except (Bool × Tr) (Bool × Tr) :=
  if task.pull_before_command then pullSection branch env tr
  else .ok (false, tr)

/-- Commit-message construction (`run_task_workflow` lines 585-590 and
`run_update_task_workflow` lines 776-781): append a bracketed rendered
timestamp when `timestamp_format` is truthy. -/
def mkCommitMessage (task : TaskCfg) (nowStr : String → String) : String :=
  if task.timestamp_format ≠ "" then
    task.commit_message ++ " [" ++ nowStr task.timestamp_format ++ "]"
  else task.commit_message

/-- `run_task_workflow` lines 612-618: the post-command (failure aborts). -/
def rtwPost (task : TaskCfg) (env : GitEnv) (tr : Tr) : Bool × Tr :=
  if task.post_command ≠ "" then
    let post := shellCall env task.post_command tr
    if post.1 then (true, post.2) else (false, post.2)
  else (true, tr)

/-- `run_task_workflow` lines 599-618: push only when configured and a commit
was actually made (`commit_made` truthy); a push failure returns False
immediately; then the post-command. -/
def rtwPushPost (task : TaskCfg) (branch : String) (env : GitEnv)
    (commitMade : Option Bool) (tr : Tr) : Bool × Tr :=
  if task.push_after_command then
    if commitMade = some true then
      let p := gitCall env ["push", "origin", branch] tr
      if p.1.2.1 then rtwPost task env p.2 else (false, p.2)
    else rtwPost task env tr
  else rtwPost task env tr

/-- `run_task_workflow` lines 576-618: stage everything, commit with the
timestamped message (capturing `commit_made`), then push/post. -/
def rtwAddCommit (task : TaskCfg) (branch : String) (env : GitEnv)
    (nowStr : String → String) (tr : Tr) : Bool × Tr :=
  let a := gitCall env ["add", "."] tr
  if a.1.2.1 then
    let c := gitCall env ["commit", "-m", mkCommitMessage task nowStr] a.2
    if c.1.2.1 then rtwPushPost task branch env c.1.2.2 c.2
    else (false, c.2)
  else (false, a.2)

/-- `run_task_workflow` lines 567-630: when the repository is clean after the
pull everything is skipped (success); otherwise pre-command (fatal on
failure), add/commit, push, post-command. -/
def rtwCommitPush (task : TaskCfg) (branch : String) (env : GitEnv)
    (nowStr : String → String) (repoClean : Bool) (tr : Tr) : Bool × Tr :=
  if repoClean then (true, tr)
  else if task.pre_command ≠ "" then
    let pre := shellCall env task.pre_command tr
    if pre.1 then rtwAddCommit task branch env nowStr pre.2 else (false, pre.2)
  else rtwAddCommit task branch env nowStr tr

/-- `core/workflow_logic.run_task_workflow`: the full task workflow. -/
def runTaskWorkflow (args : Args) (task : TaskCfg) (fs : Fs) (env : GitEnv)
    (nowStr : String → String) : Bool × Tr :=
  let branch := if args.branch ≠ "" then args.branch else task.branch
  match rtwSetup args task fs env with
  | .error r => r
  | .ok tr =>
    match rtwPull task branch env tr with
    | .error r => r
    | .ok (repoClean, tr2) => rtwCommitPush task branch env nowStr repoClean tr2

/-- `run_update_task_workflow` lines 650-718: the folder must already exist
and be a repository; then the same remote and branch reconciliation as the
full workflow. -/
def rutwSetup (args : Args) (task : TaskCfg) (fs : Fs) (env : GitEnv) :
    Except (Bool × Tr) Tr :=
  let branch := if args.branch ≠ "" then args.branch else task.branch
  let originUrl := if args.origin ≠ "" then args.origin else task.origin
  let tr0 : Tr := ⟨0, []⟩
  if fs.pathExists then
    if fs.isRepo then
      match setupOrigin originUrl env tr0 with
      | .error r => .error r
      | .ok tr1 => setupBranch branch originUrl env tr1
    else .error (false, tr0)
  else .error (false, tr0)

/-- `run_update_task_workflow` lines 767-801: stage, commit (capturing
`commit_made`), and push only when configured and a commit was made; push
failure returns False.  No pre/post commands in the update workflow. -/
def rutwAddCommit (task : TaskCfg) (branch : String) (env : GitEnv)
    (nowStr : String → String) (tr : Tr) : Bool × Tr :=
  let a := gitCall env ["add", "."] tr
  if a.1.2.1 then
    let c := gitCall env ["commit", "-m", mkCommitMessage task nowStr] a.2
    if c.1.2.1 then
      if task.push_after_command then
        if c.1.2.2 = some true then
          let p := gitCall env ["push", "origin", branch] c.2
          if p.1.2.1 then (true, p.2) else (false, p.2)
        else (true, c.2)
      else (true, c.2)
    else (false, c.2)
  else (false, a.2)

/-- `core/workflow_logic.run_update_task_workflow`: setup, an unconditional
pull section, then add/commit/push unless the repository came out clean. -/
def runUpdateTaskWorkflow (args : Args) (task : TaskCfg) (fs : Fs) (env : GitEnv)
    (nowStr : String → String) : Bool × Tr :=
  let branch := if args.branch ≠ "" then args.branch else task.branch
  match rutwSetup args task fs env with
  | .error r => r
  | .ok tr =>
    match pullSection branch env tr with
    | .error r => r
    | .ok (repoClean, tr2) =>
      if repoClean then (true, tr2)
      else rutwAddCommit task branch env nowStr tr2

/-- Abstract repository/filesystem state for `git_logic.initialize_repo`:
whether the target directory exists, whether the `.git` metadata directory
exists, and the configured remote URLs.  A successful `git init` is modelled
as creating the metadata directory and a successful `git remote add` as
recording the URL (the external tool's documented effects). -/
structure RepoSt where
  dirExists : Bool
  gitDir : Bool
  remotes : List String
deriving Repr, DecidableEq

/-- The body of `initialize_repo` after the directory-existence check
(`git_logic.py` lines 73-94). -/
def initRepoBody (env : GitEnv) (originUrl : String) (st : RepoSt) (tr : Tr) :
    (Bool × RepoSt) × Tr :=
  if st.gitDir then ((true, st), tr)
  else
    let i := glCall env ["init"] tr
    if i.1.2 then
      let st1 := { st with gitDir := true }
      if originUrl ≠ "" then
        let ra := glCall env ["remote", "add", "origin", originUrl] i.2
        if ra.1.2 then
          ((true, { st1 with remotes := st1.remotes ++ [originUrl] }), ra.2)
        else ((true, st1), ra.2)
      else ((true, st1), i.2)
    else ((false, st), i.2)

/-- `core/git_logic.initialize_repo`: create the directory if missing
(failure is fatal), succeed immediately if already a repository, otherwise
`git init` (fatal on failure) and, when an origin URL is given, `git remote
add origin` whose failure is only a warning (the function still returns
True). -/
def initRepo (env : GitEnv) (mkdirOk : Bool) (originUrl : String)
    (st : RepoSt) (tr : Tr) : (Bool × RepoSt) × Tr :=
  if st.dirExists then initRepoBody env originUrl st tr
  else if mkdirOk then
    initRepoBody env originUrl { st with dirExists := true }
      ⟨tr.k, tr.steps ++ [GStep.mkdir]⟩
  else ((false, st), ⟨tr.k, tr.steps ++ [GStep.mkdir]⟩)

/-- `core/git_logic.checkout_or_create_branch`: an unconditional fetch
(warning-only on failure), a local-branch listing, an `ls-remote` probe, and
then the three-way tie-break: plain checkout of a local branch, a tracking
checkout of a remote-only branch, or a brand-new branch plus a warning-only
upstream push. -/
def checkoutOrCreateBranch (env : GitEnv) (branchName originName : String)
    (tr : Tr) : Bool × Tr :=
  let f := glCall env ["fetch", originName] tr
  let bl := glCall env ["branch", "--list", branchName] f.2
  let localBranchExists := pyIn branchName bl.1.1
  let lr := glCall env ["ls-remote", "--heads", originName, branchName] bl.2
  let remoteBranchExists := pyStrip lr.1.1 ≠ ""
  if localBranchExists then
    let co := glCall env ["checkout", branchName] lr.2
    (co.1.2, co.2)
  else if remoteBranchExists then
    let cb := glCall env ["checkout", "-b", branchName,
      originName ++ "/" ++ branchName] lr.2
    (cb.1.2, cb.2)
  else
    let cb := glCall env ["checkout", "-b", branchName] lr.2
    if cb.1.2 then
      let pu := glCall env ["push", "-u", originName, branchName] cb.2
      (true, pu.2)
    else (false, cb.2)

/-- One remote commit as listed by `_get_remote_commits`. -/
structure CommitInfo where
  full_hash : String
  short_hash : String
  message : String
  author : String
  date : String
deriving Repr, DecidableEq

/-- The parsing loop of `_get_remote_commits` (lines 233-240): tab-split with
at most 4 splits, keeping only well-formed 5-field lines. -/
def parseCommitLines (s : String) : List CommitInfo :=
  (pySplitlines s).filterMap (fun line =>
    match pySplit1 line (Char.ofNat 9) 4 with
    | [fh, sh, msg, an, ad] => some ⟨fh, sh, msg, an, ad⟩
    | _ => none)

/-- `workflow_logic._get_remote_commits`: fetch, then a formatted `git log`
of the remote branch; `none` models the Python `None` on failure. -/
def getRemoteCommits (branch : String) (env : GitEnv) (numCommits : Nat)
    (tr : Tr) : Option (List CommitInfo) × Tr :=
  let f := gitCall env ["fetch", "origin", branch] tr
  if f.1.2.1 then
    let lg := gitCall env ["log", "origin/" ++ branch,
      "-n" ++ toString numCommits,
      "--pretty=format:%H%x09%h%x09%s%x09%an%x09%ad",
      "--date=format:%Y-%m-%d %H:%M:%S"] f.2
    if lg.1.2.1 then (some (parseCommitLines (lg.1.1.getD "")), lg.2)
    else (none, lg.2)
  else (none, f.2)

/-- One event on standard input: a line of text, or Ctrl+C. -/
inductive InpEvent where
  | line (s : String)
  | interrupt
deriving Repr, DecidableEq

/-- Result of the interactive commit-selection loop. -/
inductive SelOutcome where
  | cancel
  | pick (idx : Nat)
  | eof
deriving Repr, DecidableEq

/-- The selection loop of `run_revert_commit_workflow` (lines 348-370):
`0` cancels, an in-range number picks (1-indexed), an unparsable or
out-of-range entry re-prompts, Ctrl+C cancels; exhausting input is the
uncaught `EOFError` case. -/
def selectionLoop (ncommits : Nat) : List InpEvent → SelOutcome × List InpEvent
  | [] => (.eof, [])
  | InpEvent.interrupt :: rest => (.cancel, rest)
  | InpEvent.line s :: rest =>
    let u := pyStrip s
    match pyInt u with
    | none => selectionLoop ncommits rest
    | some v =>
      if v - 1 = -1 ∧ u = "0" then (.cancel, rest)
      else if 0 ≤ v - 1 ∧ v - 1 < (ncommits : Int) then ((.pick (v - 1).toNat), rest)
      else selectionLoop ncommits rest

/-- `workflow_logic._prompt_for_confirmation`: one input line, `yes`
(case-insensitively, stripped) confirms, anything else cancels, Ctrl+C
cancels; `none` models an uncaught `EOFError` on exhausted input. -/
def promptConfirm : List InpEvent → Option (Bool × List InpEvent)
  | [] => none
  | InpEvent.interrupt :: rest => some (false, rest)
  | InpEvent.line s :: rest => some (pyLower (pyStrip s) = "yes", rest)

/-- The cancellation/failure exit of the revert workflow: pop the stash back
when one was made, then return False. -/
def revertAbortPop (env : GitEnv) (stashed : Bool) (tr : Tr) : Option Bool × Tr :=
  if stashed then
    let p := popStashedChanges env tr
    (some false, p.2)
  else (some false, tr)

/-- The success exit of the revert workflow: pop the stash back when one was
made (pop failure is only a warning), then return True. -/
def revertFinish (env : GitEnv) (stashed : Bool) (tr : Tr) : Option Bool × Tr :=
  if stashed then
    let p := popStashedChanges env tr
    (some true, p.2)
  else (some true, tr)

/-- `run_revert_commit_workflow` from the commit listing onward (lines
335-418): list remote commits (popping the stash and failing when none),
interactive selection and confirmation (`0`/Ctrl+C/non-`yes` cancel and pop
the stash), cherry-pick (pop and fail on error), optional push whose failure
is fatal here, and a final stash pop. -/
def revertAfterStash (task : TaskCfg) (branch : String) (env : GitEnv)
    (stashed : Bool) (tr : Tr) (inputs : List InpEvent) : Option Bool × Tr :=
  let gc := getRemoteCommits branch env 5 tr
  match gc.1 with
  | none => revertAbortPop env stashed gc.2
  | some commits =>
    if commits = [] then revertAbortPop env stashed gc.2
    else
      let sel := selectionLoop commits.length inputs
      match sel.1 with
      | .eof => (none, gc.2)
      | .cancel => revertAbortPop env stashed gc.2
      | .pick idx =>
        match promptConfirm sel.2 with
        | none => (none, gc.2)
        | some (confirmed, _) =>
          if confirmed then
            let sc := commits.getD idx ⟨"", "", "", "", ""⟩
            let cp := gitCall env ["cherry-pick", sc.full_hash, "--no-edit"] gc.2
            if cp.1.2.1 then
              if task.push_after_command then
                let p := gitCall env ["push", "origin", branch] cp.2
                if p.1.2.1 then revertFinish env stashed p.2
                else revertAbortPop env stashed p.2
              else revertFinish env stashed cp.2
            else revertAbortPop env stashed cp.2
          else revertAbortPop env stashed gc.2

/-- `core/workflow_logic.run_revert_commit_workflow`: safety checks, checkout
of a branch that must already exist locally, an automatic stash of any local
changes (with a timestamped label), then `revertAfterStash`. -/
def runRevertCommitWorkflow (args : Args) (task : TaskCfg) (fs : Fs)
    (env : GitEnv) (nowStr : String → String) (inputs : List InpEvent) :
    Option Bool × Tr :=
  let branch := if args.branch ≠ "" then args.branch else task.branch
  let tr0 : Tr := ⟨0, []⟩
  if fs.pathExists && fs.isRepo then
    let rv := gitCall env ["rev-parse", "--verify", branch] tr0
    if rv.1.2.1 then
      let co := gitCall env ["checkout", branch] rv.2
      if co.1.2.1 then
        let chg := checkForChanges env co.2
        if chg.1.2 then (some false, chg.2)
        else if chg.1.1 then
          let stashMessage :=
            "git-automation-cherry-pick-temp-stash-" ++ nowStr "%Y%m%d%H%M%S"
          let st := stashLocalChanges env (some stashMessage) chg.2
          if st.1 then revertAfterStash task branch env true st.2 inputs
          else (some false, st.2)
        else revertAfterStash task branch env false chg.2 inputs
      else (some false, co.2)
    else (some false, rv.2)
  else (some false, tr0)

/-- Environment for the C7 witness: every git command succeeds silently. -/
def envC7 : GitEnv := fun _ => SpawnOutcome.ran 0 "" ""

/-- Environment for the C3 counterexample: the local branch listing reports
`main`, every command exits 0. -/
def envC3 : GitEnv := fun k =>
  match k with
  | 1 => SpawnOutcome.ran 0 "* main" ""
  | _ => SpawnOutcome.ran 0 "" ""

/-- Environment for the C3 witness: no local branch, the remote has the
branch, every command exits 0. -/
def envC3w : GitEnv := fun k =>
  match k with
  | 2 => SpawnOutcome.ran 0 "abc123 refs/heads/dev" ""
  | _ => SpawnOutcome.ran 0 "" ""

/-- Task configuration for the C4 witness: pull enabled, pre/post commands
set so that the short-circuit visibly skips them. -/
def taskC4 : TaskCfg :=
  ⟨"t", "/repo", "main", "", true, "make pre", "make post", "backup", true, ""⟩

/-- Environment for the C4 witness: every git command succeeds with empty
output, so the status check after the pull reports a clean tree. -/
def envC4 : GitEnv := fun _ => SpawnOutcome.ran 0 "" ""

/-- Task configuration for the C10 witness: no pull, no pre/post command,
push enabled. -/
def taskC10 : TaskCfg :=
  ⟨"t", "/repo", "main", "", false, "", "", "backup", true, ""⟩

/-- Environment for the C10 witness: the working tree is clean, so the
commit exits 1 with "nothing to commit". -/
def envC10 : GitEnv := fun k =>
  match k with
  | 3 => SpawnOutcome.ran 1 "nothing to commit, working tree clean" ""
  | _ => SpawnOutcome.ran 0 "" ""

/-- Task configuration for the C1 counterexample: push enabled and a
post-command configured. -/
def taskC1x : TaskCfg :=
  ⟨"t", "/repo", "main", "", false, "", "echo done", "backup", true, ""⟩

/-- Environment for the C1 counterexample: a commit is made (exit 0 with a
changed-files summary) and the subsequent push exits 1. -/
def envC1x : GitEnv := fun k =>
  match k with
  | 3 => SpawnOutcome.ran 0 "1 file changed" ""
  | 4 => SpawnOutcome.ran 1 "" "remote rejected"
  | _ => SpawnOutcome.ran 0 "" ""

/-- Task configuration for the C2 counterexample: pull enabled, nothing
else special. -/
def taskC2x : TaskCfg :=
  ⟨"t", "/repo", "main", "", true, "", "", "backup", true, ""⟩

/-- Environment for the C2 counterexample: the only pending change reported
by `git status --porcelain` before the pull is one untracked file. -/
def envC2x : GitEnv := fun k =>
  match k with
  | 2 => SpawnOutcome.ran 0 "?? newfile.txt" ""
  | _ => SpawnOutcome.ran 0 "" ""

/-- Task configuration for the C9 counterexample: template "Build" with an
empty `timestamp_format`. -/
def taskC9x : TaskCfg :=
  ⟨"t", "/repo", "main", "", false, "", "", "Build", true, ""⟩

/-- Clock rendering used by the C9 counterexample and witness. -/
def nowC9 : String → String := fun _ => "2026-10-12"

/-- Environment for the C6 witness: one modified file before the stash, one
parseable remote commit, a non-empty stash list at pop time. -/
def envC6 : GitEnv := fun k =>
  match k with
  | 2 => SpawnOutcome.ran 0 "M file.txt" ""
  | 5 => SpawnOutcome.ran 0 "aaa\tbbb\tmsg\tauth\t2026-01-01 00:00:00" ""
  | 6 => SpawnOutcome.ran 0 "stash entry" ""
  | _ => SpawnOutcome.ran 0 "" ""

/-- Task configuration for the C6 witness. -/
def taskC6 : TaskCfg :=
  ⟨"t", "/repo", "main", "", false, "", "", "backup", true, ""⟩

/-- C8: each command runner catches every exception of its subprocess call —
in particular it never propagates an error on a non-zero exit of the spawned
process, returning a structured result instead — and the output it produces
when the binary is missing differs from the output produced whenever the
binary ran and exited non-zero, so the two error kinds are distinguishable. -/
theorem C8_runner_never_raises_distinguishes :
    (∀ cmd o, ∃ r, wfExecGitE cmd o = Except.ok r) ∧
    (∀ cmd o, ∃ r, glExecGitE cmd o = Except.ok r) ∧
    (∀ b o, ∃ r, clExecuteCommandE b o = Except.ok r) ∧
    (∀ cmd c out err,
      wfExecGitE cmd (SpawnOutcome.ran (c + 1) out err) ≠
        wfExecGitE cmd SpawnOutcome.binMissing) ∧
    (∀ cmd c out err,
      glExecGitE cmd (SpawnOutcome.ran (c + 1) out err) ≠
        glExecGitE cmd SpawnOutcome.binMissing) ∧
    (∀ c out err,
      clExecuteCommandE false (SpawnOutcome.ran (c + 1) out err) ≠
        clExecuteCommandE false SpawnOutcome.binMissing) := by
  refine ⟨?_, ?_, ?_, ?_, ?_, ?_⟩
  · intro cmd o
    unfold wfExecGitE
    split <;> dsimp only <;> (try split) <;> (try split) <;> exact ⟨_, rfl⟩
  · intro cmd o
    unfold glExecGitE
    split <;> dsimp only <;> (try split) <;> (try split) <;> (try split) <;>
      exact ⟨_, rfl⟩
  · intro b o
    unfold clExecuteCommandE
    split
    · exact ⟨_, rfl⟩
    · split <;> exact ⟨_, rfl⟩
  · intro cmd c out err
    have h : c + 1 ≠ 0 := Nat.succ_ne_zero c
    unfold wfExecGitE
    simp only [subprocessCheck, if_neg h]
    split <;> simp
  · intro cmd c out err
    unfold glExecGitE
    simp only [subprocessNoCheck]
    split <;> simp_all
  · intro c out err
    have h : c + 1 ≠ 0 := Nat.succ_ne_zero c
    unfold clExecuteCommandE
    simp [subprocessCheck, if_neg h]

/-- Witness for C8 at concrete inputs: the workflow git runner returns a
structured value when git is missing, and a failed `git push` (exit 1) is
distinguishable from a missing git binary. -/
theorem C8_runner_never_raises_distinguishes_witness :
    (∃ r, wfExecGitE ["status", "--porcelain"] SpawnOutcome.binMissing =
      Except.ok r) ∧
    wfExecGitE ["push", "origin", "main"] (SpawnOutcome.ran 1 "" "fatal") ≠
      wfExecGitE ["push", "origin", "main"] SpawnOutcome.binMissing :=
  ⟨C8_runner_never_raises_distinguishes.1 ["status", "--porcelain"]
      SpawnOutcome.binMissing,
   C8_runner_never_raises_distinguishes.2.2.2.1 ["push", "origin", "main"]
      0 "" "fatal"⟩

/-- C7: `initialize_repo` is idempotent.  If a first call succeeded (any
environment, any starting state), a second call on the resulting state
returns Success immediately and performs no side effects at all: no command
is issued (empty trace) and the repository state — in particular the remote
list — is unchanged, so the remote is not added a second time. -/
theorem C7_init_idempotent (env env2 : GitEnv) (mkOk mkOk2 : Bool)
    (originUrl : String) (st st1 : RepoSt) (tr1 : Tr)
    (h : initRepo env mkOk originUrl st ⟨0, []⟩ = ((true, st1), tr1)) :
    initRepo env2 mkOk2 originUrl st1 ⟨0, []⟩ = ((true, st1), ⟨0, []⟩) := by
  have hfacts : st1.dirExists = true ∧ st1.gitDir = true := by
    unfold initRepo initRepoBody at h
    by_cases h1 : st.dirExists <;> by_cases h2 : st.gitDir <;>
      simp only [h1, h2, if_true, if_false, Bool.false_eq_true, ite_true,
        ite_false] at h <;>
      (repeat' split at h) <;>
      simp only [Prod.mk.injEq, Bool.false_eq_true, false_and, and_false,
        true_and] at h <;>
      (refine ⟨?_, ?_⟩ <;> rw [← h.1] <;> assumption)
  obtain ⟨hd, hg⟩ := hfacts
  unfold initRepo initRepoBody
  simp [hd, hg]

/-- Witness for C7: after a successful initialization of a fresh directory
with a remote, a second call is a no-op success. -/
theorem C7_init_idempotent_witness :
    initRepo envC7 true "https://example.com/r.git"
      ⟨true, true, ["https://example.com/r.git"]⟩ ⟨0, []⟩ =
      ((true, ⟨true, true, ["https://example.com/r.git"]⟩), ⟨0, []⟩) :=
  C7_init_idempotent envC7 envC7 true true "https://example.com/r.git"
    ⟨false, false, []⟩ ⟨true, true, ["https://example.com/r.git"]⟩
    ⟨2, [GStep.mkdir, GStep.git ["init"],
      GStep.git ["remote", "add", "origin", "https://example.com/r.git"]]⟩
    (by decide)

/-- Counterexample to C3 as stated: in a state where the requested branch
exists locally, `checkout_or_create_branch` does perform a plain checkout,
but it *does* consult the remote — the run issues both a `fetch` and an
`ls-remote` before the checkout. -/
theorem C3_no_remote_consult_refuted :
    checkoutOrCreateBranch envC3 "main" "origin" ⟨0, []⟩ =
      (true, ⟨4, [GStep.git ["fetch", "origin"],
        GStep.git ["branch", "--list", "main"],
        GStep.git ["ls-remote", "--heads", "origin", "main"],
        GStep.git ["checkout", "main"]]⟩) ∧
    GStep.git ["fetch", "origin"] ∈
      (checkoutOrCreateBranch envC3 "main" "origin" ⟨0, []⟩).2.steps ∧
    GStep.git ["ls-remote", "--heads", "origin", "main"] ∈
      (checkoutOrCreateBranch envC3 "main" "origin" ⟨0, []⟩).2.steps := by
  decide

/-- C3 amended: `checkout_or_create_branch` always issues a `fetch` and an
`ls-remote` first (it does consult the remote even for a local branch), but
the tie-break itself is as claimed: a locally existing branch gets a plain
`checkout` (no branch creation), and a branch that exists only remotely gets
a local tracking branch (`checkout -b name origin/name`) rather than an
independent new branch. -/
theorem C3_branch_tiebreak (env : GitEnv) (branchName originName : String)
    (tr : Tr) :
    (pyIn branchName
        (glExecGit ["branch", "--list", branchName] (env (tr.k + 1))).1 = true →
      (glExecGit ["checkout", branchName] (env (tr.k + 3))).2 = true →
      checkoutOrCreateBranch env branchName originName tr =
        (true, ⟨tr.k + 4, tr.steps ++
          [GStep.git ["fetch", originName],
           GStep.git ["branch", "--list", branchName],
           GStep.git ["ls-remote", "--heads", originName, branchName],
           GStep.git ["checkout", branchName]]⟩)) ∧
    (pyIn branchName
        (glExecGit ["branch", "--list", branchName] (env (tr.k + 1))).1 = false →
      pyStrip (glExecGit ["ls-remote", "--heads", originName, branchName]
        (env (tr.k + 2))).1 ≠ "" →
      (glExecGit ["checkout", "-b", branchName, originName ++ "/" ++ branchName]
        (env (tr.k + 3))).2 = true →
      checkoutOrCreateBranch env branchName originName tr =
        (true, ⟨tr.k + 4, tr.steps ++
          [GStep.git ["fetch", originName],
           GStep.git ["branch", "--list", branchName],
           GStep.git ["ls-remote", "--heads", originName, branchName],
           GStep.git ["checkout", "-b", branchName,
             originName ++ "/" ++ branchName]]⟩)) := by
  constructor
  · intro hl hco
    simp [checkoutOrCreateBranch, glCall, hl, hco]
  · intro hl hr hco
    simp [checkoutOrCreateBranch, glCall, hl, hr, hco]

/-- Witness for C3: a branch existing only on the remote yields a tracking
checkout `git checkout -b dev origin/dev`. -/
theorem C3_branch_tiebreak_witness :
    checkoutOrCreateBranch envC3w "dev" "origin" ⟨0, []⟩ =
      (true, ⟨4, [GStep.git ["fetch", "origin"],
        GStep.git ["branch", "--list", "dev"],
        GStep.git ["ls-remote", "--heads", "origin", "dev"],
        GStep.git ["checkout", "-b", "dev", "origin/dev"]]⟩) :=
  (C3_branch_tiebreak envC3w "dev" "origin" ⟨0, []⟩).2 (by decide) (by decide)
    (by decide)

/-- C4: repo-clean-after-pull short-circuit.  In the full task workflow with
`pull_before_command` set, whenever the pull section ends with the
pending-changes check reporting no changes (`repo_clean_after_pull = true`),
the workflow returns success with the trace exactly as the pull section left
it: no pre-command, no staging, no commit, no push and no post-command are
performed. -/
theorem C4_repo_clean_short_circuit (args : Args) (task : TaskCfg) (fs : Fs)
    (env : GitEnv) (nowStr : String → String) (br : String) (tr tr2 : Tr)
    (hbr : (if args.branch ≠ "" then args.branch else task.branch) = br)
    (hSetup : rtwSetup args task fs env = Except.ok tr)
    (hFlag : task.pull_before_command = true)
    (hPull : pullSection br env tr = Except.ok (true, tr2)) :
    runTaskWorkflow args task fs env nowStr = (true, tr2) := by
  unfold runTaskWorkflow rtwPull
  rw [hSetup, hbr]
  simp [hFlag, hPull, rtwCommitPush]

/-- Witness for C4: a clean-after-pull run ends successfully right after the
second status check; neither shell command nor add/commit/push appears. -/
theorem C4_repo_clean_short_circuit_witness :
    runTaskWorkflow ⟨"", "", "", false⟩ taskC4 ⟨true, true, true⟩ envC4
      (fun _ => "") =
      (true, ⟨5, [GStep.git ["rev-parse", "--verify", "main"],
        GStep.git ["checkout", "main"],
        GStep.git ["status", "--porcelain"],
        GStep.git ["pull", "origin", "main"],
        GStep.git ["status", "--porcelain"]]⟩) :=
  C4_repo_clean_short_circuit ⟨"", "", "", false⟩ taskC4 ⟨true, true, true⟩
    envC4 (fun _ => "") "main"
    ⟨2, [GStep.git ["rev-parse", "--verify", "main"],
      GStep.git ["checkout", "main"]]⟩
    ⟨5, [GStep.git ["rev-parse", "--verify", "main"],
      GStep.git ["checkout", "main"],
      GStep.git ["status", "--porcelain"],
      GStep.git ["pull", "origin", "main"],
      GStep.git ["status", "--porcelain"]]⟩
    (by decide) (by rfl) (by decide) (by rfl)

/-- C10: the skip-when-clean short-circuit exists only on runs that pull.
With `pull_before_command` false the repository is never marked clean, so the
pre-command (when set), staging and commit are always attempted; when the
commit is a no-op ("nothing to commit", `commit_made = false`) the push is
skipped even though `push_after_command` is set, and the workflow succeeds
with exactly the pre-command (if any), `add` and `commit` appended to the
trace — no push. -/
theorem C10_no_pull_always_commits (args : Args) (task : TaskCfg) (fs : Fs)
    (env : GitEnv) (nowStr : String → String) (br : String) (tr : Tr)
    (hbr : (if args.branch ≠ "" then args.branch else task.branch) = br)
    (hSetup : rtwSetup args task fs env = Except.ok tr)
    (hFlag : task.pull_before_command = false)
    (hPush : task.push_after_command = true)
    (hPost : task.post_command = "") :
    (∀ aout aerr cm ce c,
      task.pre_command = "" →
      env tr.k = SpawnOutcome.ran 0 aout aerr →
      env (tr.k + 1) = SpawnOutcome.ran (c + 1) cm ce →
      noChangesMsg (cm ++ ce) = true →
      runTaskWorkflow args task fs env nowStr =
        (true, ⟨tr.k + 2, tr.steps ++
          [GStep.git ["add", "."],
           GStep.git ["commit", "-m", mkCommitMessage task nowStr]]⟩)) ∧
    (∀ sout serr aout aerr cm ce c,
      task.pre_command ≠ "" →
      env tr.k = SpawnOutcome.ran 0 sout serr →
      env (tr.k + 1) = SpawnOutcome.ran 0 aout aerr →
      env (tr.k + 2) = SpawnOutcome.ran (c + 1) cm ce →
      noChangesMsg (cm ++ ce) = true →
      runTaskWorkflow args task fs env nowStr =
        (true, ⟨tr.k + 3, tr.steps ++
          [GStep.shell task.pre_command,
           GStep.git ["add", "."],
           GStep.git ["commit", "-m", mkCommitMessage task nowStr]]⟩)) := by
  constructor
  · intro aout aerr cm ce c hpre hAdd hCommit hNoop
    unfold runTaskWorkflow rtwPull
    rw [hSetup, hbr]
    simp [hFlag, rtwCommitPush, hpre, rtwAddCommit, gitCall, hAdd, hCommit,
      wfExecGit, wfExecGitE, subprocessCheck, Nat.succ_ne_zero, hNoop,
      rtwPushPost, hPush, rtwPost, hPost]
  · intro sout serr aout aerr cm ce c hpre hShell hAdd hCommit hNoop
    unfold runTaskWorkflow rtwPull
    rw [hSetup, hbr]
    simp [hFlag, rtwCommitPush, hpre, shellCall, hShell, rtwAddCommit, gitCall,
      hAdd, hCommit, wfExecGit, wfExecGitE, subprocessCheck, Nat.succ_ne_zero,
      hNoop, rtwPushPost, hPush, rtwPost, hPost]

/-- Witness for C10: with pull disabled and a clean tree, add and commit are
still attempted, the commit is a no-op, and no push command is issued. -/
theorem C10_no_pull_always_commits_witness :
    runTaskWorkflow ⟨"", "", "", false⟩ taskC10 ⟨true, true, true⟩ envC10
      (fun _ => "") =
      (true, ⟨4, [GStep.git ["rev-parse", "--verify", "main"],
        GStep.git ["checkout", "main"],
        GStep.git ["add", "."],
        GStep.git ["commit", "-m", "backup"]]⟩) :=
  (C10_no_pull_always_commits ⟨"", "", "", false⟩ taskC10 ⟨true, true, true⟩
      envC10 (fun _ => "") "main"
      ⟨2, [GStep.git ["rev-parse", "--verify", "main"],
        GStep.git ["checkout", "main"]]⟩
      (by decide) (by rfl) (by decide) (by decide) (by decide)).1
    "" "" "nothing to commit, working tree clean" "" 0
    (by decide) (by rfl) (by rfl) (by decide)

/-- C5: no-op commit detection.  A `git commit` whose output reports "nothing
to commit" yields Success with `commit_made = false`, both on the exit-0 path
and on the non-zero-exit path of the runner; and in both the main and the
update workflow a run whose commit is such a no-op succeeds with no push
command issued (`push_after_command` notwithstanding): the trace ends with
`add` and `commit` only. -/
theorem C5_noop_commit_skips_push :
    (∀ rest m e, noChangesMsg m = true →
      wfExecGit ("commit" :: rest) (SpawnOutcome.ran 0 m e) =
        (some (pyStrip m), true, some false)) ∧
    (∀ rest c m e, noChangesMsg (m ++ e) = true →
      wfExecGit ("commit" :: rest) (SpawnOutcome.ran (c + 1) m e) =
        (some "", true, some false)) ∧
    (∀ (args : Args) (task : TaskCfg) (fs : Fs) (env : GitEnv)
      (nowStr : String → String) (br : String) (tr tr2 : Tr) (aout aerr m e : String),
      (if args.branch ≠ "" then args.branch else task.branch) = br →
      rtwSetup args task fs env = Except.ok tr →
      task.pull_before_command = true →
      task.pre_command = "" → task.post_command = "" →
      task.push_after_command = true →
      pullSection br env tr = Except.ok (false, tr2) →
      env tr2.k = SpawnOutcome.ran 0 aout aerr →
      env (tr2.k + 1) = SpawnOutcome.ran 0 m e →
      noChangesMsg m = true →
      runTaskWorkflow args task fs env nowStr =
        (true, ⟨tr2.k + 2, tr2.steps ++
          [GStep.git ["add", "."],
           GStep.git ["commit", "-m", mkCommitMessage task nowStr]]⟩)) ∧
    (∀ (args : Args) (task : TaskCfg) (fs : Fs) (env : GitEnv)
      (nowStr : String → String) (br : String) (tr tr2 : Tr) (aout aerr m e : String),
      (if args.branch ≠ "" then args.branch else task.branch) = br →
      rutwSetup args task fs env = Except.ok tr →
      task.push_after_command = true →
      pullSection br env tr = Except.ok (false, tr2) →
      env tr2.k = SpawnOutcome.ran 0 aout aerr →
      env (tr2.k + 1) = SpawnOutcome.ran 0 m e →
      noChangesMsg m = true →
      runUpdateTaskWorkflow args task fs env nowStr =
        (true, ⟨tr2.k + 2, tr2.steps ++
          [GStep.git ["add", "."],
           GStep.git ["commit", "-m", mkCommitMessage task nowStr]]⟩)) := by
  refine ⟨?_, ?_, ?_, ?_⟩
  · intro rest m e h
    simp [wfExecGit, wfExecGitE, subprocessCheck, h]
  · intro rest c m e h
    simp [wfExecGit, wfExecGitE, subprocessCheck, Nat.succ_ne_zero, h]
  · intro args task fs env nowStr br tr tr2 aout aerr m e hbr hSetup hFlag
      hpre hPost hPush hPull hAdd hCommit hNoop
    unfold runTaskWorkflow rtwPull
    rw [hSetup, hbr]
    simp [hFlag, hPull, rtwCommitPush, hpre, rtwAddCommit, gitCall, hAdd,
      hCommit, wfExecGit, wfExecGitE, subprocessCheck, hNoop, rtwPushPost,
      hPush, rtwPost, hPost]
  · intro args task fs env nowStr br tr tr2 aout aerr m e hbr hSetup hPush
      hPull hAdd hCommit hNoop
    unfold runUpdateTaskWorkflow
    rw [hSetup, hbr]
    simp [hPull, rutwAddCommit, gitCall, hAdd, hCommit, wfExecGit, wfExecGitE,
      subprocessCheck, hNoop, hPush]

/-- Witness for C5: a concrete "nothing to commit" output yields success with
`commit_made = false` from the commit runner. -/
theorem C5_noop_commit_skips_push_witness :
    wfExecGit ["commit", "-m", "backup"]
      (SpawnOutcome.ran 0 "nothing to commit, working tree clean" "") =
      (some (pyStrip "nothing to commit, working tree clean"), true,
        some false) :=
  C5_noop_commit_skips_push.1 ["-m", "backup"]
    "nothing to commit, working tree clean" "" (by decide)

/-- Counterexample to C1 as stated: on a run where a commit was made and the
push fails, the full task workflow aborts — it returns failure and the
configured post-command is never executed, so the push failure is not a
warning and the workflow result cannot be success. -/
theorem C1_push_warning_refuted :
    (runTaskWorkflow ⟨"", "", "", false⟩ taskC1x ⟨true, true, true⟩ envC1x
      (fun _ => "")).1 = false ∧
    GStep.shell "echo done" ∉
      (runTaskWorkflow ⟨"", "", "", false⟩ taskC1x ⟨true, true, true⟩ envC1x
        (fun _ => "")).2.steps := by
  decide

/-- C1 amended: in the full task workflow (and likewise in the update
workflow), when `push_after_command` is set and a commit was actually made, a
failure of the subsequent push is fatal: the workflow stops right after the
failed push (the post-command and the terminal success are not reached) and
returns failure. -/
theorem C1_push_failure_fatal :
    (∀ (args : Args) (task : TaskCfg) (fs : Fs) (env : GitEnv)
      (nowStr : String → String) (br : String) (tr : Tr)
      (aout aerr m e pout perr : String) (c : Nat),
      (if args.branch ≠ "" then args.branch else task.branch) = br →
      rtwSetup args task fs env = Except.ok tr →
      task.pull_before_command = false →
      task.pre_command = "" →
      task.push_after_command = true →
      env tr.k = SpawnOutcome.ran 0 aout aerr →
      env (tr.k + 1) = SpawnOutcome.ran 0 m e →
      noChangesMsg m = false →
      env (tr.k + 2) = SpawnOutcome.ran (c + 1) pout perr →
      runTaskWorkflow args task fs env nowStr =
        (false, ⟨tr.k + 3, tr.steps ++
          [GStep.git ["add", "."],
           GStep.git ["commit", "-m", mkCommitMessage task nowStr],
           GStep.git ["push", "origin", br]]⟩)) ∧
    (∀ (args : Args) (task : TaskCfg) (fs : Fs) (env : GitEnv)
      (nowStr : String → String) (br : String) (tr tr2 : Tr)
      (aout aerr m e pout perr : String) (c : Nat),
      (if args.branch ≠ "" then args.branch else task.branch) = br →
      rutwSetup args task fs env = Except.ok tr →
      task.push_after_command = true →
      pullSection br env tr = Except.ok (false, tr2) →
      env tr2.k = SpawnOutcome.ran 0 aout aerr →
      env (tr2.k + 1) = SpawnOutcome.ran 0 m e →
      noChangesMsg m = false →
      env (tr2.k + 2) = SpawnOutcome.ran (c + 1) pout perr →
      runUpdateTaskWorkflow args task fs env nowStr =
        (false, ⟨tr2.k + 3, tr2.steps ++
          [GStep.git ["add", "."],
           GStep.git ["commit", "-m", mkCommitMessage task nowStr],
           GStep.git ["push", "origin", br]]⟩)) := by
  constructor
  · intro args task fs env nowStr br tr aout aerr m e pout perr c hbr hSetup
      hFlag hpre hPush hAdd hCommit hMade hPushEnv
    unfold runTaskWorkflow rtwPull
    rw [hSetup, hbr]
    simp [hFlag, rtwCommitPush, hpre, rtwAddCommit, gitCall, hAdd, hCommit,
      wfExecGit, wfExecGitE, subprocessCheck, Nat.succ_ne_zero, hMade,
      rtwPushPost, hPush, hPushEnv]
  · intro args task fs env nowStr br tr tr2 aout aerr m e pout perr c hbr
      hSetup hPush hPull hAdd hCommit hMade hPushEnv
    unfold runUpdateTaskWorkflow
    rw [hSetup, hbr]
    simp [hPull, rutwAddCommit, gitCall, hAdd, hCommit, wfExecGit, wfExecGitE,
      subprocessCheck, Nat.succ_ne_zero, hMade, hPush, hPushEnv]

/-- Witness for C1: the amended fatal-push behaviour at a concrete run. -/
theorem C1_push_failure_fatal_witness :
    runTaskWorkflow ⟨"", "", "", false⟩ taskC1x ⟨true, true, true⟩ envC1x
      (fun _ => "") =
      (false, ⟨5, [GStep.git ["rev-parse", "--verify", "main"],
        GStep.git ["checkout", "main"],
        GStep.git ["add", "."],
        GStep.git ["commit", "-m", "backup"],
        GStep.git ["push", "origin", "main"]]⟩) :=
  C1_push_failure_fatal.1 ⟨"", "", "", false⟩ taskC1x ⟨true, true, true⟩
    envC1x (fun _ => "") "main"
    ⟨2, [GStep.git ["rev-parse", "--verify", "main"],
      GStep.git ["checkout", "main"]]⟩
    "" "" "1 file changed" "" "" "remote rejected" 0
    (by decide) (by rfl) (by decide) (by decide) (by decide) (by rfl) (by rfl)
    (by decide) (by rfl)

/-- `pyStrip` of the empty string. -/
theorem pyStrip_empty : pyStrip "" = "" := rfl

/-- Counterexample to C2 as stated: in a repository state whose only pending
change is an untracked file, the full task workflow does NOT skip the
pre-pull stash — a `git stash push` is issued before the pull, because the
stash decision uses the broad any-status-line check, not the stricter
untracked-excluding one. -/
theorem C2_untracked_skip_refuted :
    GStep.git ["stash", "push", "--include-untracked", "-m",
        "git-automation-temp-stash"] ∈
      (runTaskWorkflow ⟨"", "", "", false⟩ taskC2x ⟨true, true, true⟩ envC2x
        (fun _ => "")).2.steps := by
  decide

/-- C2 amended: the pre-pull stash decision in the full task workflow is made
by the broad `_check_for_changes` (any non-empty status line counts), so for
every repository state whose only pending changes are untracked files a
pre-pull stash IS created; the stricter untracked-excluding check
`_check_for_unstaged_changes` exists in git_logic and would indeed report "no
changes" on such a state, but it is not the one consulted by the workflow. -/
theorem C2_untracked_stash_behavior :
    (∀ (args : Args) (task : TaskCfg) (fs : Fs) (env : GitEnv)
      (nowStr : String → String) (br : String) (tr : Tr) (s : String),
      (if args.branch ≠ "" then args.branch else task.branch) = br →
      rtwSetup args task fs env = Except.ok tr →
      task.pull_before_command = true →
      env tr.k = SpawnOutcome.ran 0 s "" →
      pyStrip s = s → s ≠ "" →
      (∀ l ∈ pySplitlines s, pyStartswith "??" l = true) →
      env (tr.k + 1) = SpawnOutcome.ran 0 "" "" →
      env (tr.k + 2) = SpawnOutcome.ran 0 "" "" →
      env (tr.k + 3) = SpawnOutcome.ran 0 "" "" →
      env (tr.k + 4) = SpawnOutcome.ran 0 "" "" →
      runTaskWorkflow args task fs env nowStr =
        (true, ⟨tr.k + 5, tr.steps ++
          [GStep.git ["status", "--porcelain"],
           GStep.git ["stash", "push", "--include-untracked", "-m",
             "git-automation-temp-stash"],
           GStep.git ["pull", "origin", br],
           GStep.git ["stash", "list"],
           GStep.git ["status", "--porcelain"]]⟩)) ∧
    (∀ (env : GitEnv) (tr : Tr) (s : String),
      env tr.k = SpawnOutcome.ran 0 s "" →
      pyStrip s = s →
      (∀ l ∈ pySplitlines s, pyStartswith "??" l = true) →
      (checkForUnstagedChanges env tr).1 = false) := by
  constructor
  · intro args task fs env nowStr br tr s hbr hSetup hFlag h0 hs hne hunt h1
      h2 h3 h4
    unfold runTaskWorkflow rtwPull
    rw [hSetup, hbr]
    simp [hFlag, pullSection, checkForChanges, gitCall, h0, h1, h2, h3, h4,
      stashLocalChanges, pullRest, popStashedChanges, wfExecGit, wfExecGitE,
      subprocessCheck, hs, hne, pyStrip_empty, rtwCommitPush]
  · intro env tr s h0 hs hunt
    unfold checkForUnstagedChanges glCall
    rw [h0]
    simp [glExecGit, glExecGitE, subprocessNoCheck, hs]
    exact hunt

/-- Witness for C2: the concrete untracked-only run issues exactly the
status/stash/pull/stash-list/status sequence after checkout, and the stricter
check reports no changes on the same status output. -/
theorem C2_untracked_stash_behavior_witness :
    runTaskWorkflow ⟨"", "", "", false⟩ taskC2x ⟨true, true, true⟩ envC2x
      (fun _ => "") =
      (true, ⟨7, [GStep.git ["rev-parse", "--verify", "main"],
        GStep.git ["checkout", "main"],
        GStep.git ["status", "--porcelain"],
        GStep.git ["stash", "push", "--include-untracked", "-m",
          "git-automation-temp-stash"],
        GStep.git ["pull", "origin", "main"],
        GStep.git ["stash", "list"],
        GStep.git ["status", "--porcelain"]]⟩) ∧
    (checkForUnstagedChanges envC2x ⟨2, []⟩).1 = false :=
  ⟨(C2_untracked_stash_behavior.1 ⟨"", "", "", false⟩ taskC2x
      ⟨true, true, true⟩ envC2x (fun _ => "") "main"
      ⟨2, [GStep.git ["rev-parse", "--verify", "main"],
        GStep.git ["checkout", "main"]]⟩
      "?? newfile.txt"
      (by decide) (by rfl) (by decide) (by rfl) (by decide) (by decide)
      (by decide) (by rfl) (by rfl) (by rfl) (by rfl)),
   (C2_untracked_stash_behavior.2 envC2x ⟨2, []⟩ "?? newfile.txt"
      (by rfl) (by decide) (by decide))⟩

/-- Counterexample to C9 as stated: the bracketed-timestamp suffix is
appended only when `timestamp_format` is truthy.  For a task config with an
empty `timestamp_format`, the message passed to the commit operation is the
bare template, not "template [rendered timestamp]" — so the stated property
does not hold for every task config. -/
theorem C9_message_format_refuted :
    mkCommitMessage taskC9x nowC9 = "Build" ∧
    mkCommitMessage taskC9x nowC9 ≠
      taskC9x.commit_message ++ " [" ++ nowC9 taskC9x.timestamp_format ++ "]" := by
  decide

/-- C9 amended: whenever `timestamp_format` is non-empty the final commit
message is exactly the template, a space, and the bracketed rendered
timestamp (so `commit_message="Build"`, `timestamp_format="%Y-%m-%d"` gives
"Build [YYYY-MM-DD]"); with an empty format the bare template is used; and
the full task workflow passes exactly this constructed message to
`git commit -m`. -/
theorem C9_commit_message_format :
    (∀ (task : TaskCfg) (nowStr : String → String),
      task.timestamp_format ≠ "" →
      mkCommitMessage task nowStr =
        task.commit_message ++ " [" ++ nowStr task.timestamp_format ++ "]") ∧
    (∀ (task : TaskCfg) (nowStr : String → String),
      task.timestamp_format = "" →
      mkCommitMessage task nowStr = task.commit_message) ∧
    (∀ (args : Args) (task : TaskCfg) (fs : Fs) (env : GitEnv)
      (nowStr : String → String) (br : String) (tr : Tr) (aout aerr m e : String),
      (if args.branch ≠ "" then args.branch else task.branch) = br →
      rtwSetup args task fs env = Except.ok tr →
      task.pull_before_command = false →
      task.pre_command = "" → task.post_command = "" →
      task.push_after_command = false →
      env tr.k = SpawnOutcome.ran 0 aout aerr →
      env (tr.k + 1) = SpawnOutcome.ran 0 m e →
      noChangesMsg m = false →
      runTaskWorkflow args task fs env nowStr =
        (true, ⟨tr.k + 2, tr.steps ++
          [GStep.git ["add", "."],
           GStep.git ["commit", "-m", mkCommitMessage task nowStr]]⟩)) := by
  refine ⟨?_, ?_, ?_⟩
  · intro task nowStr h
    simp [mkCommitMessage, h]
  · intro task nowStr h
    simp [mkCommitMessage, h]
  · intro args task fs env nowStr br tr aout aerr m e hbr hSetup hFlag hpre
      hPost hPush hAdd hCommit hMade
    unfold runTaskWorkflow rtwPull
    rw [hSetup, hbr]
    simp [hFlag, rtwCommitPush, hpre, rtwAddCommit, gitCall, hAdd, hCommit,
      wfExecGit, wfExecGitE, subprocessCheck, hMade, rtwPushPost, hPush,
      rtwPost, hPost]

/-- Witness for C9: the spec scenario — template "Build" and format
"%Y-%m-%d" — yields "Build [2026-10-12]" under a clock rendering that date,
and a concrete workflow run issues `git commit -m` with the constructed
message. -/
theorem C9_commit_message_format_witness :
    mkCommitMessage ⟨"t", "/repo", "main", "", false, "", "", "Build", true,
        "%Y-%m-%d"⟩ nowC9 = "Build [2026-10-12]" :=
  C9_commit_message_format.1
    ⟨"t", "/repo", "main", "", false, "", "", "Build", true, "%Y-%m-%d"⟩
    nowC9 (by decide)

/-- Appending to a non-empty string stays non-empty. -/
theorem str_append_ne_empty (a b : String) (h : a ≠ "") : a ++ b ≠ "" := by
  cases a with | mk la =>
  cases b with | mk lb =>
  intro hab
  apply h
  have hd : la ++ lb = [] := congrArg String.data hab
  have := List.append_eq_nil.mp hd
  simp [this.1]

/-- Entering `0` at the selection prompt cancels immediately. -/
theorem selectionLoop_cancel_zero (n : Nat) (rest : List InpEvent) :
    selectionLoop n (InpEvent.line "0" :: rest) = (SelOutcome.cancel, rest) := by
  have h1 : pyStrip "0" = "0" := rfl
  have h2 : pyInt "0" = some 0 := by decide
  simp [selectionLoop, h1, h2]

/-- Ctrl+C at the selection prompt cancels immediately. -/
theorem selectionLoop_cancel_interrupt (n : Nat) (rest : List InpEvent) :
    selectionLoop n (InpEvent.interrupt :: rest) = (SelOutcome.cancel, rest) := rfl

/-- C6: in the revert workflow, whenever local changes were auto-stashed and
the user then enters `0` at the commit-selection prompt (or interrupts it
with Ctrl+C), the workflow attempts to pop the stash back (the run ends with
`git stash list` / `git stash pop`, whatever the pop's own outcome) and
returns failure/cancelled. -/
theorem C6_revert_cancel_pops_stash (args : Args) (task : TaskCfg) (fs : Fs) (env : GitEnv)
    (nowStr : String → String) (br : String)
    (o0 e0 o1 e1 s o3 e3 o4 e4 lg l6 : String)
    (inputs : List InpEvent) (rest : List InpEvent)
    (hbr : (if args.branch ≠ "" then args.branch else task.branch) = br)
    (hfs1 : fs.pathExists = true) (hfs2 : fs.isRepo = true)
    (h0 : env 0 = SpawnOutcome.ran 0 o0 e0)
    (h1 : env 1 = SpawnOutcome.ran 0 o1 e1)
    (h2 : env 2 = SpawnOutcome.ran 0 s "")
    (hs : pyStrip s = s) (hne : s ≠ "")
    (h3 : env 3 = SpawnOutcome.ran 0 o3 e3)
    (h4 : env 4 = SpawnOutcome.ran 0 o4 e4)
    (h5 : env 5 = SpawnOutcome.ran 0 lg "")
    (hlg : pyStrip lg = lg)
    (hcom : parseCommitLines lg ≠ [])
    (h6 : env 6 = SpawnOutcome.ran 0 l6 "")
    (hl6 : pyStrip l6 = l6) (hl6ne : l6 ≠ "")
    (hinp : inputs = InpEvent.line "0" :: rest ∨
      inputs = InpEvent.interrupt :: rest) :
    runRevertCommitWorkflow args task fs env nowStr inputs =
      (some false, ⟨8,
        [GStep.git ["rev-parse", "--verify", br],
         GStep.git ["checkout", br],
         GStep.git ["status", "--porcelain"],
         GStep.git ["stash", "push", "--include-untracked", "-m",
           "git-automation-cherry-pick-temp-stash-" ++ nowStr "%Y%m%d%H%M%S"],
         GStep.git ["fetch", "origin", br],
         GStep.git ["log", "origin/" ++ br, "-n5",
           "--pretty=format:%H%x09%h%x09%s%x09%an%x09%ad",
           "--date=format:%Y-%m-%d %H:%M:%S"],
         GStep.git ["stash", "list"],
         GStep.git ["stash", "pop"]]⟩) := by
  have hmsg : "git-automation-cherry-pick-temp-stash-" ++
      nowStr "%Y%m%d%H%M%S" ≠ "" :=
    str_append_ne_empty _ _ (by decide)
  have hn5 : ("-n" ++ toString 5 : String) = "-n5" := rfl
  unfold runRevertCommitWorkflow
  rw [hbr]
  rcases hinp with hin | hin <;> subst hin <;>
    simp [hn5, hfs1, hfs2, gitCall, h0, h1, h2, h3, h4, h5, h6, wfExecGit,
      wfExecGitE, subprocessCheck, checkForChanges, hs, hne,
      stashLocalChanges, hmsg, revertAfterStash, getRemoteCommits, hlg, hcom,
      selectionLoop_cancel_zero, selectionLoop_cancel_interrupt,
      revertAbortPop, popStashedChanges, hl6, hl6ne]

/-- Witness for C6: a concrete cancelled revert run pops the stash and
returns failure. -/
theorem C6_revert_cancel_pops_stash_witness :
    runRevertCommitWorkflow ⟨"", "", "", false⟩ taskC6 ⟨true, true, true⟩
      envC6 (fun _ => "20260101000000") [InpEvent.line "0"] =
      (some false, ⟨8,
        [GStep.git ["rev-parse", "--verify", "main"],
         GStep.git ["checkout", "main"],
         GStep.git ["status", "--porcelain"],
         GStep.git ["stash", "push", "--include-untracked", "-m",
           "git-automation-cherry-pick-temp-stash-20260101000000"],
         GStep.git ["fetch", "origin", "main"],
         GStep.git ["log", "origin/main", "-n5",
           "--pretty=format:%H%x09%h%x09%s%x09%an%x09%ad",
           "--date=format:%Y-%m-%d %H:%M:%S"],
         GStep.git ["stash", "list"],
         GStep.git ["stash", "pop"]]⟩) :=
  C6_revert_cancel_pops_stash ⟨"", "", "", false⟩ taskC6 ⟨true, true, true⟩
    envC6 (fun _ => "20260101000000") "main"
    "" "" "" "" "M file.txt" "" "" "" "" "aaa\tbbb\tmsg\tauth\t2026-01-01 00:00:00"
    "stash entry" [InpEvent.line "0"] []
    (by decide) (by decide) (by decide) (by rfl) (by rfl) (by rfl)
    (by decide) (by decide) (by rfl) (by rfl) (by rfl) (by decide)
    (by decide) (by rfl) (by decide) (by decide) (Or.inl rfl)
